import Mathlib

/-!
Shallow embedding of src/utils/topcoder-api-helper.js.

The module authenticates against the Topcoder identity system and issues
REST calls. We embed:
  - the legacy token exchange getAccessToken (lines 37-76) as explicit
    state passing over a process-wide cache (the cachedAccessToken
    variable), with the transport responses supplied by an environment
    and the transport calls performed recorded in a trace;
  - each endpoint operation as the request it builds (method, url, body,
    headers) together with the number of machine-to-machine token
    requests it performs, and the behaviour of its catch block on a
    transport failure.
JavaScript truthiness of the token / field checks is modelled explicitly
(empty string and the number 0 are falsy).
-/

/-- A JSON value, as carried in request and response bodies. -/
inductive JsValue where
  | null : JsValue
  | bool (b : Bool) : JsValue
  | num (n : Int) : JsValue
  | str (s : String) : JsValue
  | arr (xs : List JsValue) : JsValue
  | obj (fields : List (String × JsValue)) : JsValue

/-- Lookup of a key in a JSON object field list (first match wins,
as JavaScript objects hold each key once). -/
def findField (fields : List (String × JsValue)) (key : String) : Option JsValue :=
  match fields with
  | [] => none
  | p :: rest => if p.fst == key then some p.snd else findField rest key

/-- lodash get of a single-level path on a JSON value: the field when the
value is an object holding it, undefined (none) otherwise. -/
def jsGetField (v : JsValue) (key : String) : Option JsValue :=
  match v with
  | JsValue.obj fields => findField fields key
  | _ => none

/-- JavaScript truthiness of a possibly-undefined JSON value:
undefined, null, false, 0 and the empty string are falsy. -/
def jsTruthy : Option JsValue → Bool
  | none => false
  | some JsValue.null => false
  | some (JsValue.bool b) => b
  | some (JsValue.num n) => n != 0
  | some (JsValue.str s) => s != ""
  | some (JsValue.arr _) => true
  | some (JsValue.obj _) => true

/-- JavaScript truthiness of a possibly-undefined string value
(undefined and the empty string are falsy). -/
def strTruthy : Option String → Bool
  | none => false
  | some s => s != ""

/-- lodash assign of a second field list over a first: keys of the second
overwrite keys of the first (source line 118 uses _.assign). -/
def assignFields (a b : List (String × JsValue)) : List (String × JsValue) :=
  a.filter (fun p => !(b.any (fun q => q.fst == p.fst))) ++ b

/-- The static configuration values the module reads (config module). -/
structure Config where
  TC_AUTHN_URL : String
  TC_AUTHZ_URL : String
  TC_API_URL : String
  TC_API_URL_V3 : String
  NEW_CHALLENGE_TEMPLATE : List (String × JsValue)
  TYPE_ID_FIRST2FINISH : String
  DEFAULT_TIMELINE_TEMPLATE_ID : String
  ROLE_ID_SUBMITTER : String

/-- data of the identity-exchange (v2) response: the two token fields,
each possibly missing (lines 49-50 read them with _.get). -/
structure AuthnResponseData where
  id_token : Option String
  refresh_token : Option String

/-- data.result.content.token of the authorization-exchange (v3)
response, possibly missing (line 69 reads it with _.get). -/
structure AuthzResponseData where
  token : Option String

/-- The two transport calls getAccessToken may perform. -/
inductive TransportCall where
  | authn : TransportCall
  | authz : TransportCall
deriving Repr, DecidableEq

/-- The two errors getAccessToken throws (lines 53 and 72); the spec
names them AuthenticationError and AuthorizationError. -/
inductive TokenError where
  | authenticationError (url : String) : TokenError
  | authorizationError (url : String) : TokenError
deriving Repr, DecidableEq

/-- Environment of one getAccessToken run: the current time, the jwt
decoder (giving the iat claim of a token) and the transport responses. -/
structure TokenEnv where
  now : Int
  decodeIat : String → Int
  authnResponse : AuthnResponseData
  authzResponse : AuthzResponseData

/-- Outcome of one getAccessToken run: the returned token or thrown
error, the value of the process-wide cachedAccessToken variable after
the run, and the transport calls performed, in order. -/
structure GetAccessTokenResult where
  result : Except TokenError String
  cache : Option String
  calls : List TransportCall

/-- The cached-token validity check of lines 39-44: the cache holds a
truthy value and its decoded iat claim is greater than the current time
(the deliberately inverted comparison the spec documents). -/
def cacheHit (env : TokenEnv) : Option String → Bool
  | none => false
  | some tok => tok != "" && decide (env.decodeIat tok > env.now)

/-- Lines 48-75 of getAccessToken: the two-step exchange run on a cache
miss. On a missing identity or refresh token it throws before the
authorization call and leaves the cache unchanged; otherwise it assigns
the authorization response token to the cache (line 69) and only then
checks it (line 71). -/
def getAccessTokenAuthenticate (cfg : Config) (env : TokenEnv)
    (cachedAccessToken : Option String) : GetAccessTokenResult :=
  if !(strTruthy env.authnResponse.id_token) || !(strTruthy env.authnResponse.refresh_token) then
    { result := Except.error (TokenError.authenticationError cfg.TC_AUTHN_URL)
      cache := cachedAccessToken
      calls := [TransportCall.authn] }
  else
    let newCache := env.authzResponse.token
    if !(strTruthy newCache) then
      { result := Except.error (TokenError.authorizationError cfg.TC_AUTHZ_URL)
        cache := newCache
        calls := [TransportCall.authn, TransportCall.authz] }
    else
      { result := Except.ok (newCache.getD "")
        cache := newCache
        calls := [TransportCall.authn, TransportCall.authz] }

/-- getAccessToken (lines 37-76): return the cached token when the
validity check passes, performing no transport calls; otherwise run the
two-step exchange. -/
def getAccessToken (cfg : Config) (env : TokenEnv)
    (cachedAccessToken : Option String) : GetAccessTokenResult :=
  if cacheHit env cachedAccessToken then
    { result := Except.ok (cachedAccessToken.getD "")
      cache := cachedAccessToken
      calls := [] }
  else
    getAccessTokenAuthenticate cfg env cachedAccessToken

/-- HTTP method of a request. -/
inductive HttpMethod where
  | get : HttpMethod
  | post : HttpMethod
  | patch : HttpMethod
  | delete : HttpMethod
deriving Repr, DecidableEq

/-- The request an endpoint operation builds: method, url, body and the
headers it sets (authorization and Content-Type, each optional). -/
structure Request where
  method : HttpMethod
  url : String
  body : JsValue
  authorization : Option String
  contentType : Option String

/-- One endpoint operation call: how many machine-to-machine token
requests it performs (the await getM2Mtoken() line) and the request it
executes. -/
structure OpCall where
  m2mTokenRequests : Nat
  request : Request

/-- The bearer header value built from a token. -/
def bearer (apiKey : String) : String := "Bearer " ++ apiKey

/-- err.response on a transport error: status and data of the HTTP
response, absent entirely for a thrown network error or timeout. -/
structure ErrResponse where
  status : Int
  data : JsValue

/-- A transport error as thrown by the HTTP client: message plus the
optional response object. -/
structure TransportError where
  message : String
  response : Option ErrResponse

/-- An error as observed by a caller of this module: the original
transport error, a TypeError raised by unguarded property access while
handling an error, or the normalized upstream error wrapper. -/
inductive JsError where
  | transport (err : TransportError) : JsError
  | typeError (message : String) : JsError
  | upstream (description : String) (cause : JsError) : JsError

/-- Modelled from the spec: the errors module of this repository is not
under src (only its caller topcoder-api-helper.js is). Per spec section
4.3 its convertTopcoderApiError takes the thrown error and a
human-readable description and produces a single normalized error
(UpstreamRequestError) carrying that description and the original cause;
it never throws itself. -/
def convertTopcoderApiError (err : JsError) (description : String) : JsError :=
  JsError.upstream description err

/-- The message of the TypeError raised when a catch block evaluates
err.response.data while err.response is undefined. -/
def undefinedResponseDataMessage : String :=
  "TypeError: Cannot read properties of undefined reading data"

/-- createProject (lines 91-109): POST TC_API_URL/projects. -/
def createProjectCall (cfg : Config) (apiKey : String) (projectName : String) : OpCall :=
  { m2mTokenRequests := 1
    request :=
      { method := HttpMethod.post
        url := cfg.TC_API_URL ++ "/projects"
        body := JsValue.obj [("name", JsValue.str projectName)]
        authorization := some (bearer apiKey)
        contentType := some "application/json" } }

/-- createProject catch block (lines 104-108): logs safely and converts. -/
def createProjectCatch (err : TransportError) : JsError :=
  convertTopcoderApiError (JsError.transport err) "Failed to create project."

/-- The challenge argument of createChallenge. -/
structure Challenge where
  name : String
  detailedRequirements : String
  prizes : List Int
  projectId : Int

/-- The prizeSets array of the createChallenge body (lines 122-125). -/
def prizeSetsValue (prizes : List Int) : JsValue :=
  JsValue.arr [JsValue.obj
    [("type", JsValue.str "Challenge prizes"),
     ("prizes", JsValue.arr (prizes.map (fun prize =>
        JsValue.obj [("type", JsValue.str "money"), ("value", JsValue.num prize)])))]]

/-- The createChallenge body (lines 118-128): the NEW_CHALLENGE_TEMPLATE
with the challenge fields assigned over it. -/
def createChallengeBody (cfg : Config) (challenge : Challenge) : JsValue :=
  JsValue.obj (assignFields cfg.NEW_CHALLENGE_TEMPLATE
    [("typeId", JsValue.str cfg.TYPE_ID_FIRST2FINISH),
     ("name", JsValue.str challenge.name),
     ("description", JsValue.str challenge.detailedRequirements),
     ("prizeSets", prizeSetsValue challenge.prizes),
     ("timelineTemplateId", JsValue.str cfg.DEFAULT_TIMELINE_TEMPLATE_ID),
     ("projectId", JsValue.num challenge.projectId)])

/-- createChallenge (lines 116-145): POST TC_API_URL/challenges. -/
def createChallengeCall (cfg : Config) (apiKey : String) (challenge : Challenge) : OpCall :=
  { m2mTokenRequests := 1
    request :=
      { method := HttpMethod.post
        url := cfg.TC_API_URL ++ "/challenges"
        body := createChallengeBody cfg challenge
        authorization := some (bearer apiKey)
        contentType := some "application/json" } }

/-- createChallenge catch block (lines 140-144): logs safely and converts. -/
def createChallengeCatch (err : TransportError) : JsError :=
  convertTopcoderApiError (JsError.transport err) "Failed to create challenge."

/-- updateChallenge (lines 152-176): PATCH TC_API_URL/challenges/id with
the caller-supplied challenge body. -/
def updateChallengeCall (cfg : Config) (apiKey : String) (id : String)
    (challenge : JsValue) : OpCall :=
  { m2mTokenRequests := 1
    request :=
      { method := HttpMethod.patch
        url := cfg.TC_API_URL ++ "/challenges/" ++ id
        body := challenge
        authorization := some (bearer apiKey)
        contentType := some "application/json" } }

/-- updateChallenge catch block (lines 165-175): line 170 evaluates
err.response.data without a guard, so when the transport error has no
response object the handler itself raises a TypeError; otherwise it
converts the error with its description. -/
def updateChallengeCatch (err : TransportError) : JsError :=
  match err.response with
  | none => JsError.typeError undefinedResponseDataMessage
  | some _ => convertTopcoderApiError (JsError.transport err) "Failed to update challenge."

/-- activateChallenge (lines 182-207): PATCH TC_API_URL/challenges/id
with body status Active. -/
def activateChallengeCall (cfg : Config) (apiKey : String) (id : String) : OpCall :=
  { m2mTokenRequests := 1
    request :=
      { method := HttpMethod.patch
        url := cfg.TC_API_URL ++ "/challenges/" ++ id
        body := JsValue.obj [("status", JsValue.str "Active")]
        authorization := some (bearer apiKey)
        contentType := some "application/json" } }

/-- activateChallenge catch block (lines 196-206): line 201 evaluates
err.response.data without a guard. -/
def activateChallengeCatch (err : TransportError) : JsError :=
  match err.response with
  | none => JsError.typeError undefinedResponseDataMessage
  | some _ => convertTopcoderApiError (JsError.transport err) "Failed to activate challenge."

/-- getChallengeById (lines 214-238): GET TC_API_URL/challenges/id. The
source passes Content-Type outside the headers object, so it is not a
header of the request. -/
def getChallengeByIdCall (cfg : Config) (apiKey : String) (id : String) : OpCall :=
  { m2mTokenRequests := 1
    request :=
      { method := HttpMethod.get
        url := cfg.TC_API_URL ++ "/challenges/" ++ id
        body := JsValue.null
        authorization := some (bearer apiKey)
        contentType := none } }

/-- getChallengeById catch block (lines 228-237): line 233 evaluates
err.response.data without a guard. -/
def getChallengeByIdCatch (err : TransportError) : JsError :=
  match err.response with
  | none => JsError.typeError undefinedResponseDataMessage
  | some _ => convertTopcoderApiError (JsError.transport err) "Failed to get challenge details by Id"

/-- closeChallenge (lines 246-278): PATCH TC_API_URL/challenges/id with
status Completed and the winner entry. -/
def closeChallengeCall (cfg : Config) (apiKey : String) (id : String)
    (winnerId : Int) (winnerUsername : String) : OpCall :=
  { m2mTokenRequests := 1
    request :=
      { method := HttpMethod.patch
        url := cfg.TC_API_URL ++ "/challenges/" ++ id
        body := JsValue.obj
          [("status", JsValue.str "Completed"),
           ("winners", JsValue.arr [JsValue.obj
              [("userId", JsValue.num winnerId),
               ("handle", JsValue.str winnerUsername),
               ("placement", JsValue.num 1)]])]
        authorization := some (bearer apiKey)
        contentType := some "application/json" } }

/-- closeChallenge catch block (lines 267-277): line 272 evaluates
err.response.data without a guard. -/
def closeChallengeCatch (err : TransportError) : JsError :=
  match err.response with
  | none => JsError.typeError undefinedResponseDataMessage
  | some _ => convertTopcoderApiError (JsError.transport err) "Failed to close challenge."

/-- getProjectBillingAccountId (lines 285-309): GET TC_API_URL/projects/id. -/
def getProjectBillingAccountIdCall (cfg : Config) (apiKey : String) (id : String) : OpCall :=
  { m2mTokenRequests := 1
    request :=
      { method := HttpMethod.get
        url := cfg.TC_API_URL ++ "/projects/" ++ id
        body := JsValue.null
        authorization := some (bearer apiKey)
        contentType := none } }

/-- Lines 294-302 of getProjectBillingAccountId: read
data.billingAccountId with _.get and return null when it is falsy
(the JavaScript check if (!billingAccountId)), else return it. -/
def getProjectBillingAccountIdExtract (data : JsValue) : Option JsValue :=
  let billingAccountId := jsGetField data "billingAccountId"
  if !(jsTruthy billingAccountId) then none else billingAccountId

/-- getProjectBillingAccountId catch block (lines 303-308): line 304
evaluates err.response.data without a guard. -/
def getProjectBillingAccountIdCatch (err : TransportError) : JsError :=
  match err.response with
  | none => JsError.typeError undefinedResponseDataMessage
  | some _ => convertTopcoderApiError (JsError.transport err) "Failed to get billing detail for the project."

/-- getTopcoderMemberId (lines 316-327): GET TC_API_URL_V3/members/handle.
The source performs no getM2Mtoken call and passes no headers at all. -/
def getTopcoderMemberIdCall (cfg : Config) (handle : String) : OpCall :=
  { m2mTokenRequests := 0
    request :=
      { method := HttpMethod.get
        url := cfg.TC_API_URL_V3 ++ "/members/" ++ handle
        body := JsValue.null
        authorization := none
        contentType := none } }

/-- getTopcoderMemberId catch block (lines 322-326): logs safely and converts. -/
def getTopcoderMemberIdCatch (err : TransportError) : JsError :=
  convertTopcoderApiError (JsError.transport err) "Failed to get topcoder member id."

/-- addResourceToChallenge (lines 335-358): POST TC_API_URL/resources. -/
def addResourceToChallengeCall (cfg : Config) (apiKey : String) (id : String)
    (handle : String) (roleId : String) : OpCall :=
  { m2mTokenRequests := 1
    request :=
      { method := HttpMethod.post
        url := cfg.TC_API_URL ++ "/resources"
        body := JsValue.obj
          [("challengeId", JsValue.str id),
           ("memberHandle", JsValue.str handle),
           ("roleId", JsValue.str roleId)]
        authorization := some (bearer apiKey)
        contentType := some "application/json" } }

/-- addResourceToChallenge catch block (lines 352-357): line 355
evaluates err.response.data without a guard. -/
def addResourceToChallengeCatch (err : TransportError) : JsError :=
  match err.response with
  | none => JsError.typeError undefinedResponseDataMessage
  | some _ => convertTopcoderApiError (JsError.transport err) "Failed to add resource to the challenge."

/-- getResourcesFromChallenge (lines 365-380): GET
TC_API_URL/resources?challengeId=id. Content-Type is passed outside the
headers object, so it is not a header. -/
def getResourcesFromChallengeCall (cfg : Config) (apiKey : String) (id : String) : OpCall :=
  { m2mTokenRequests := 1
    request :=
      { method := HttpMethod.get
        url := cfg.TC_API_URL ++ "/resources?challengeId=" ++ id
        body := JsValue.null
        authorization := some (bearer apiKey)
        contentType := none } }

/-- getResourcesFromChallenge catch block (lines 377-379): converts
directly, no unguarded access. -/
def getResourcesFromChallengeCatch (err : TransportError) : JsError :=
  convertTopcoderApiError (JsError.transport err) "Failed to fetch resource from the challenge."

/-- A challenge resource as returned by the resources endpoint; the scan
of roleAlreadySet reads only its roleId. -/
structure Resource where
  roleId : String

/-- The forEach scan of roleAlreadySet (lines 389-396): result starts
false and is set to true on every resource whose roleId equals the
queried one. -/
def roleAlreadySetScan (resources : List Resource) (roleId : String) : Bool :=
  resources.foldl (fun result resource =>
    if resource.roleId == roleId then true else result) false

/-- roleAlreadySet (lines 388-401): fetch the resources of the
challenge, scan them; a fetch failure is already converted inside
getResourcesFromChallenge and the catch of roleAlreadySet converts that
converted error again (line 398). -/
def roleAlreadySetRun (roleId : String)
    (fetched : Except TransportError (List Resource)) : Except JsError Bool :=
  match fetched with
  | Except.ok resources => Except.ok (roleAlreadySetScan resources roleId)
  | Except.error err =>
      Except.error (convertTopcoderApiError (getResourcesFromChallengeCatch err)
        "Failed to fetch resource from the challenge.")

/-- cancelPrivateContent (lines 416-440): PATCH TC_API_URL/challenges/id
with body status Canceled. -/
def cancelPrivateContentCall (cfg : Config) (apiKey : String) (id : String) : OpCall :=
  { m2mTokenRequests := 1
    request :=
      { method := HttpMethod.patch
        url := cfg.TC_API_URL ++ "/challenges/" ++ id
        body := JsValue.obj [("status", JsValue.str "Canceled")]
        authorization := some (bearer apiKey)
        contentType := some "application/json" } }

/-- cancelPrivateContent catch block (lines 430-439): line 434 evaluates
err.response.data without a guard; line 438 passes the description
Failed to activate challenge. (the literal string in the source). -/
def cancelPrivateContentCatch (err : TransportError) : JsError :=
  match err.response with
  | none => JsError.typeError undefinedResponseDataMessage
  | some _ => convertTopcoderApiError (JsError.transport err) "Failed to activate challenge."

/-- removeResourceToChallenge (lines 458-482): DELETE
TC_API_URL/resources with the challengeId, memberHandle and roleId body. -/
def removeResourceToChallengeCall (cfg : Config) (apiKey : String) (id : String)
    (handle : String) (roleId : String) : OpCall :=
  { m2mTokenRequests := 1
    request :=
      { method := HttpMethod.delete
        url := cfg.TC_API_URL ++ "/resources"
        body := JsValue.obj
          [("challengeId", JsValue.str id),
           ("memberHandle", JsValue.str handle),
           ("roleId", JsValue.str roleId)]
        authorization := some (bearer apiKey)
        contentType := some "application/json" } }

/-- removeResourceToChallenge catch block (lines 476-481): line 479
evaluates err.response.data without a guard; line 480 passes the
description Failed to add resource to the challenge. (the literal
string in the source). -/
def removeResourceToChallengeCatch (err : TransportError) : JsError :=
  match err.response with
  | none => JsError.typeError undefinedResponseDataMessage
  | some _ => convertTopcoderApiError (JsError.transport err) "Failed to add resource to the challenge."

/-- removeResourceToChallenge as a whole run: the call it performs and,
when the transport fails, the error its catch block produces. -/
def removeResourceToChallengeRun (cfg : Config) (apiKey : String) (id : String)
    (handle : String) (roleId : String) (outcome : Option TransportError) :
    OpCall × Option JsError :=
  (removeResourceToChallengeCall cfg apiKey id handle roleId,
   outcome.map removeResourceToChallengeCatch)

/-- unregisterUserFromChallenge (lines 408-410): the body is the single
statement await removeResourceToChallenge(id, handle, roleId). -/
def unregisterUserFromChallengeRun (cfg : Config) (apiKey : String) (id : String)
    (handle : String) (roleId : String) (outcome : Option TransportError) :
    OpCall × Option JsError :=
  removeResourceToChallengeRun cfg apiKey id handle roleId outcome

/-- A concrete configuration used to instantiate closed statements. -/
def cfgW : Config :=
  { TC_AUTHN_URL := "https://topcoder-dev.auth0.com/oauth/ro"
    TC_AUTHZ_URL := "https://api.topcoder-dev.com/v3/authorizations"
    TC_API_URL := "https://api.topcoder-dev.com/v5"
    TC_API_URL_V3 := "https://api.topcoder-dev.com/v3"
    NEW_CHALLENGE_TEMPLATE := [("status", JsValue.str "Draft")]
    TYPE_ID_FIRST2FINISH := "type-first2finish"
    DEFAULT_TIMELINE_TEMPLATE_ID := "timeline-default"
    ROLE_ID_SUBMITTER := "role-submitter" }

/-- A concrete token environment where the decoded iat claim of every
token lies in the future and both exchange responses carry tokens. -/
def envFutureIatW : TokenEnv :=
  { now := 100
    decodeIat := fun _ => 200
    authnResponse := { id_token := some "idtok", refresh_token := some "refreshtok" }
    authzResponse := { token := some "accesstok" } }

/-- A concrete token environment where the cached token is expired and
the identity-exchange response misses its refresh token. -/
def envAuthnFailW : TokenEnv :=
  { now := 100
    decodeIat := fun _ => 0
    authnResponse := { id_token := some "idtok", refresh_token := none }
    authzResponse := { token := some "accesstok" } }

/-- A concrete token environment where the cached token is expired, the
identity exchange succeeds and the authorization-exchange response
carries no token. -/
def envAuthzFailW : TokenEnv :=
  { now := 100
    decodeIat := fun _ => 0
    authnResponse := { id_token := some "idtok", refresh_token := some "refreshtok" }
    authzResponse := { token := none } }

/-- A concrete transport failure carrying an HTTP response (a non-2xx
status). -/
def err500 : TransportError :=
  { message := "Request failed with status code 500"
    response := some { status := 500, data := JsValue.null } }

/-- A concrete transport failure carrying no response object (a thrown
network error or timeout). -/
def netErrW : TransportError :=
  { message := "Network Error", response := none }

/-- C2: for every cached token whose decoded issued-at claim is greater
than the current time, getAccessToken returns the cached token value and
performs no transport calls (neither the identity-exchange nor the
authorization-exchange call is invoked). -/
theorem getAccessToken_future_iat_uses_cache (cfg : Config) (env : TokenEnv)
    (tok : String) (hne : tok ≠ "") (hiat : env.decodeIat tok > env.now) :
    getAccessToken cfg env (some tok) =
      { result := Except.ok tok, cache := some tok, calls := [] } := by
  have hhit : cacheHit env (some tok) = true := by
    simp [cacheHit, bne_iff_ne, hne, hiat]
  simp [getAccessToken, hhit]

/-- Witness for C2 at a concrete configuration and environment. -/
theorem getAccessToken_future_iat_uses_cache_witness :
    getAccessToken cfgW envFutureIatW (some "cachedtok") =
      { result := Except.ok "cachedtok", cache := some "cachedtok", calls := [] } :=
  getAccessToken_future_iat_uses_cache cfgW envFutureIatW "cachedtok"
    (by decide) (by decide)

/-- C3: when no token is cached, getAccessToken performs exactly two
transport calls, the identity-exchange call first and the
authorization-exchange call second, and stores the resulting access
token in the process-wide cache before returning it. -/
theorem getAccessToken_cold_start_two_calls (cfg : Config) (env : TokenEnv)
    (s : String) (hid : strTruthy env.authnResponse.id_token = true)
    (href : strTruthy env.authnResponse.refresh_token = true)
    (htok : env.authzResponse.token = some s) (hs : s ≠ "") :
    getAccessToken cfg env none =
      { result := Except.ok s, cache := some s
        calls := [TransportCall.authn, TransportCall.authz] } := by
  have hmiss : cacheHit env none = false := rfl
  have hstok : strTruthy (some s) = true := by
    simp [strTruthy, bne_iff_ne, hs]
  simp [getAccessToken, hmiss, getAccessTokenAuthenticate, hid, href, htok, hstok]

/-- Witness for C3 at a concrete configuration and environment. -/
theorem getAccessToken_cold_start_two_calls_witness :
    getAccessToken cfgW envFutureIatW none =
      { result := Except.ok "accesstok", cache := some "accesstok"
        calls := [TransportCall.authn, TransportCall.authz] } :=
  getAccessToken_cold_start_two_calls cfgW envFutureIatW "accesstok"
    (by decide) (by decide) rfl (by decide)

/-- C4: when the cache misses and the identity-exchange response omits
the id token or the refresh token (or both), getAccessToken fails with
the authentication error and the authorization-exchange call is never
attempted; the cache is left unchanged. -/
theorem getAccessToken_authn_missing_token_fails (cfg : Config) (env : TokenEnv)
    (cached : Option String) (hmiss : cacheHit env cached = false)
    (h : strTruthy env.authnResponse.id_token = false ∨
         strTruthy env.authnResponse.refresh_token = false) :
    getAccessToken cfg env cached =
      { result := Except.error (TokenError.authenticationError cfg.TC_AUTHN_URL)
        cache := cached, calls := [TransportCall.authn] } ∧
    TransportCall.authz ∉ (getAccessToken cfg env cached).calls := by
  have hrun : getAccessToken cfg env cached =
      { result := Except.error (TokenError.authenticationError cfg.TC_AUTHN_URL)
        cache := cached, calls := [TransportCall.authn] } := by
    rcases h with h | h <;>
      simp [getAccessToken, hmiss, getAccessTokenAuthenticate, h]
  refine ⟨hrun, ?_⟩
  rw [hrun]
  simp

/-- Witness for C4 at a concrete configuration and environment. -/
theorem getAccessToken_authn_missing_token_fails_witness :
    getAccessToken cfgW envAuthnFailW none =
      { result := Except.error (TokenError.authenticationError cfgW.TC_AUTHN_URL)
        cache := none, calls := [TransportCall.authn] } ∧
    TransportCall.authz ∉ (getAccessToken cfgW envAuthnFailW none).calls :=
  getAccessToken_authn_missing_token_fails cfgW envAuthnFailW none
    (by decide) (Or.inr (by decide))

/-- C10: when the cache misses, the identity exchange succeeds and the
authorization-exchange response contains no token, getAccessToken
overwrites the process-wide cached token with the absent value before
throwing the authorization error, so the previously cached token is
discarded (the cache is not left unchanged). -/
theorem getAccessToken_authz_missing_token_clears_cache (cfg : Config)
    (env : TokenEnv) (prevTok : String)
    (hmiss : cacheHit env (some prevTok) = false)
    (hid : strTruthy env.authnResponse.id_token = true)
    (href : strTruthy env.authnResponse.refresh_token = true)
    (hnone : env.authzResponse.token = none) :
    getAccessToken cfg env (some prevTok) =
      { result := Except.error (TokenError.authorizationError cfg.TC_AUTHZ_URL)
        cache := none, calls := [TransportCall.authn, TransportCall.authz] } ∧
    (getAccessToken cfg env (some prevTok)).cache ≠ some prevTok := by
  have hrun : getAccessToken cfg env (some prevTok) =
      { result := Except.error (TokenError.authorizationError cfg.TC_AUTHZ_URL)
        cache := none, calls := [TransportCall.authn, TransportCall.authz] } := by
    have hsnone : strTruthy none = false := rfl
    simp [getAccessToken, hmiss, getAccessTokenAuthenticate, hid, href, hnone, hsnone]
  refine ⟨hrun, ?_⟩
  rw [hrun]
  simp

/-- Witness for C10 at a concrete configuration and environment. -/
theorem getAccessToken_authz_missing_token_clears_cache_witness :
    getAccessToken cfgW envAuthzFailW (some "oldtok") =
      { result := Except.error (TokenError.authorizationError cfgW.TC_AUTHZ_URL)
        cache := none, calls := [TransportCall.authn, TransportCall.authz] } ∧
    (getAccessToken cfgW envAuthzFailW (some "oldtok")).cache ≠ some "oldtok" :=
  getAccessToken_authz_missing_token_clears_cache cfgW envAuthzFailW "oldtok"
    (by decide) (by decide) (by decide) rfl

/-- C1 (the claim fails on the code): on a transport failure that
carries no response object (a thrown network error or timeout), the
catch block of updateChallenge evaluates err.response.data without a
guard, so a secondary TypeError escapes instead of the single normalized
upstream error; and on a transport failure of the resource fetch,
roleAlreadySet wraps the already-normalized error a second time, so the
raised error wraps another normalized error, not the original transport
error. -/
theorem updateChallenge_network_error_double_fault :
    updateChallengeCatch netErrW = JsError.typeError undefinedResponseDataMessage ∧
    (∀ (description : String) (cause : JsError),
      updateChallengeCatch netErrW ≠ JsError.upstream description cause) ∧
    roleAlreadySetRun "role-copilot" (Except.error err500) =
      Except.error (JsError.upstream "Failed to fetch resource from the challenge."
        (JsError.upstream "Failed to fetch resource from the challenge."
          (JsError.transport err500))) :=
  ⟨rfl, fun _ _ h => JsError.noConfusion h, rfl⟩

/-- C5 counterexample: a successful response whose body contains the
billingAccountId field with the value 0 yields null, not that value,
because the source tests the field with JavaScript truthiness. -/
theorem getProjectBillingAccountId_zero_counterexample :
    jsGetField (JsValue.obj [("billingAccountId", JsValue.num 0)]) "billingAccountId" =
      some (JsValue.num 0) ∧
    getProjectBillingAccountIdExtract (JsValue.obj [("billingAccountId", JsValue.num 0)]) =
      none :=
  ⟨rfl, rfl⟩

/-- C5 as amended: a successful response body without a billingAccountId
field yields null; a body whose billingAccountId field holds a truthy
value yields exactly that value; a body whose billingAccountId field
holds a falsy value (such as 0) also yields null. -/
theorem getProjectBillingAccountId_extract_spec :
    (∀ data : JsValue, jsGetField data "billingAccountId" = none →
      getProjectBillingAccountIdExtract data = none) ∧
    (∀ (data : JsValue) (v : JsValue), jsGetField data "billingAccountId" = some v →
      jsTruthy (some v) = true → getProjectBillingAccountIdExtract data = some v) ∧
    (∀ (data : JsValue) (v : JsValue), jsGetField data "billingAccountId" = some v →
      jsTruthy (some v) = false → getProjectBillingAccountIdExtract data = none) := by
  refine ⟨?_, ?_, ?_⟩
  · intro data h
    simp [getProjectBillingAccountIdExtract, h, jsTruthy]
  · intro data v h ht
    simp [getProjectBillingAccountIdExtract, h, ht]
  · intro data v h hf
    simp [getProjectBillingAccountIdExtract, h, hf]

/-- Witness for the amended C5 at concrete response bodies. -/
theorem getProjectBillingAccountId_extract_spec_witness :
    getProjectBillingAccountIdExtract (JsValue.obj [("id", JsValue.num 5)]) = none ∧
    getProjectBillingAccountIdExtract
        (JsValue.obj [("billingAccountId", JsValue.num 80000012)]) =
      some (JsValue.num 80000012) :=
  ⟨getProjectBillingAccountId_extract_spec.1 (JsValue.obj [("id", JsValue.num 5)]) rfl,
   getProjectBillingAccountId_extract_spec.2.1
     (JsValue.obj [("billingAccountId", JsValue.num 80000012)])
     (JsValue.num 80000012) rfl rfl⟩

/-- The forEach scan of roleAlreadySet, with an arbitrary starting
accumulator, computes the disjunction of the accumulator with a linear
scan for a matching role id. -/
theorem roleAlreadySetScan_foldl (roleId : String) (resources : List Resource)
    (b : Bool) :
    resources.foldl (fun result resource =>
        if resource.roleId == roleId then true else result) b =
      (b || resources.any (fun resource => resource.roleId == roleId)) := by
  induction resources generalizing b with
  | nil => simp
  | cons r rest ih =>
      rw [List.foldl_cons, List.any_cons, ih]
      cases hr : r.roleId == roleId <;> simp [hr]

/-- C6: roleAlreadySet returns true exactly when some resource in the
fetched resource list has a roleId equal to the queried one; in
particular on the list of roles A and B the query B returns true, the
query C returns false, and on the empty list the result is false. -/
theorem roleAlreadySet_scan_spec :
    (∀ (resources : List Resource) (roleId : String),
      roleAlreadySetScan resources roleId = true ↔
        ∃ r, r ∈ resources ∧ r.roleId = roleId) ∧
    roleAlreadySetScan [{ roleId := "A" }, { roleId := "B" }] "B" = true ∧
    roleAlreadySetScan [{ roleId := "A" }, { roleId := "B" }] "C" = false ∧
    roleAlreadySetScan [] "B" = false := by
  refine ⟨?_, by decide, by decide, rfl⟩
  intro resources roleId
  rw [roleAlreadySetScan, roleAlreadySetScan_foldl]
  simp [List.any_eq_true]

/-- C7 counterexample: getTopcoderMemberId performs no
machine-to-machine token request and the request it builds carries no
authorization header at all. -/
theorem getTopcoderMemberId_no_bearer_counterexample :
    (getTopcoderMemberIdCall cfgW "mess").m2mTokenRequests = 0 ∧
    (getTopcoderMemberIdCall cfgW "mess").request.authorization = none :=
  ⟨rfl, rfl⟩

/-- C7 as amended: every public endpoint operation except
getTopcoderMemberId performs exactly one machine-to-machine token
request and attaches the resulting bearer credential in the
authorization header of the request it builds; getTopcoderMemberId
requests no token and sends its request without an authorization
header. -/
theorem operations_attach_bearer_token (cfg : Config) (apiKey : String)
    (projectName : String) (challenge : Challenge) (challengeBody : JsValue)
    (id : String) (handle : String) (roleId : String) (winnerId : Int)
    (winnerUsername : String) :
    (createProjectCall cfg apiKey projectName).m2mTokenRequests = 1 ∧
    (createProjectCall cfg apiKey projectName).request.authorization =
      some (bearer apiKey) ∧
    (createChallengeCall cfg apiKey challenge).m2mTokenRequests = 1 ∧
    (createChallengeCall cfg apiKey challenge).request.authorization =
      some (bearer apiKey) ∧
    (updateChallengeCall cfg apiKey id challengeBody).m2mTokenRequests = 1 ∧
    (updateChallengeCall cfg apiKey id challengeBody).request.authorization =
      some (bearer apiKey) ∧
    (activateChallengeCall cfg apiKey id).m2mTokenRequests = 1 ∧
    (activateChallengeCall cfg apiKey id).request.authorization =
      some (bearer apiKey) ∧
    (getChallengeByIdCall cfg apiKey id).m2mTokenRequests = 1 ∧
    (getChallengeByIdCall cfg apiKey id).request.authorization =
      some (bearer apiKey) ∧
    (closeChallengeCall cfg apiKey id winnerId winnerUsername).m2mTokenRequests = 1 ∧
    (closeChallengeCall cfg apiKey id winnerId winnerUsername).request.authorization =
      some (bearer apiKey) ∧
    (getProjectBillingAccountIdCall cfg apiKey id).m2mTokenRequests = 1 ∧
    (getProjectBillingAccountIdCall cfg apiKey id).request.authorization =
      some (bearer apiKey) ∧
    (addResourceToChallengeCall cfg apiKey id handle roleId).m2mTokenRequests = 1 ∧
    (addResourceToChallengeCall cfg apiKey id handle roleId).request.authorization =
      some (bearer apiKey) ∧
    (getResourcesFromChallengeCall cfg apiKey id).m2mTokenRequests = 1 ∧
    (getResourcesFromChallengeCall cfg apiKey id).request.authorization =
      some (bearer apiKey) ∧
    (cancelPrivateContentCall cfg apiKey id).m2mTokenRequests = 1 ∧
    (cancelPrivateContentCall cfg apiKey id).request.authorization =
      some (bearer apiKey) ∧
    (removeResourceToChallengeCall cfg apiKey id handle roleId).m2mTokenRequests = 1 ∧
    (removeResourceToChallengeCall cfg apiKey id handle roleId).request.authorization =
      some (bearer apiKey) ∧
    (getTopcoderMemberIdCall cfg handle).m2mTokenRequests = 0 ∧
    (getTopcoderMemberIdCall cfg handle).request.authorization = none :=
  ⟨rfl, rfl, rfl, rfl, rfl, rfl, rfl, rfl, rfl, rfl, rfl, rfl,
   rfl, rfl, rfl, rfl, rfl, rfl, rfl, rfl, rfl, rfl, rfl, rfl⟩

/-- C8 (the claim fails on the code): on a transport failure,
cancelPrivateContent raises the description Failed to activate
challenge., which is identical to the description activateChallenge
raises, and removeResourceToChallenge raises the description Failed to
add resource to the challenge., identical to the one
addResourceToChallenge raises; the four operations do not each carry
their own distinct documented description. -/
theorem cancelPrivateContent_message_collision :
    cancelPrivateContentCatch err500 =
      JsError.upstream "Failed to activate challenge." (JsError.transport err500) ∧
    cancelPrivateContentCatch err500 = activateChallengeCatch err500 ∧
    removeResourceToChallengeCatch err500 = addResourceToChallengeCatch err500 :=
  ⟨rfl, rfl, rfl⟩

/-- C9: for all inputs, unregisterUserFromChallenge performs exactly the
same call (same token request count, method, url, body and headers) as
removeResourceToChallenge on identical arguments, with the same error
behaviour and no additional effects: its body is the single delegating
statement of source lines 408-410. -/
theorem unregisterUserFromChallenge_delegates (cfg : Config) (apiKey : String)
    (id : String) (handle : String) (roleId : String)
    (outcome : Option TransportError) :
    unregisterUserFromChallengeRun cfg apiKey id handle roleId outcome =
      removeResourceToChallengeRun cfg apiKey id handle roleId outcome := rfl
